import Mathlib

/-!
# Verification of `jpeg_to_pdf_converter.py`

A shallow embedding of the core logic of the JPEG-to-PDF converter:
the EXIF orientation normalizer (`apply_exif_orientation`), the
document assembler (`convert_jpegs_to_pdf`), and the success dialog of
`main`.  External collaborators (PIL, tkinter, the filesystem) are
modelled by explicit data: an image carries its pixel raster, its color
mode string and the outcome of reading its EXIF block; each input path
carries the outcome of `Image.open`; the final `save` call carries its
outcome as a parameter.  Python exceptions are modelled with `Except`.
-/

set_option autoImplicit false

namespace JpegToPdf

/-- Python exception classes that can arise while reading EXIF metadata
(`image._getexif()` / `exif.get(274)`).  The source catches exactly
`AttributeError`, `KeyError` and `TypeError`; `otherError` stands for any
exception class outside that tuple. -/
inductive PyError where
  | attributeError
  | keyError
  | typeError
  | otherError (msg : String)
deriving DecidableEq, Repr

/-- Model of Python `str(e)` for an exception, as interpolated into
`f"Failed to create PDF: {str(e)}"`. -/
def PyError.str : PyError → String
  | .attributeError => "AttributeError"
  | .keyError => "KeyError"
  | .typeError => "TypeError"
  | .otherError msg => msg

/-- The EXIF block of an image as returned by `image._getexif()`: a
dictionary from integer tag numbers to integer values. -/
abbrev ExifDict := List (Nat × Nat)

/-- Python `dict.get(key)`: the value at the first matching key, or
`None` when absent. -/
def ExifDict.get (d : ExifDict) (key : Nat) : Option Nat :=
  (List.find? (fun p => p.1 = key) d).map (fun p => p.2)

deriving instance DecidableEq for Except

/-- A decoded raster image (PIL `Image`).  `width`/`height` are
`img.size`, `mode` is `img.mode` (a string such as "RGB", "L", "P",
"RGBA"), `pixels` is the raster as a list of rows (row `r`, column `c`),
and `exif` is the outcome of the `image._getexif()` call: it raises an
exception, returns `None`, or returns an EXIF dictionary. -/
structure Image where
  width : Nat
  height : Nat
  mode : String
  pixels : List (List Nat)
  exif : Except PyError (Option ExifDict)
deriving DecidableEq, Repr

/-- Pixel at row `r`, column `c` (0 outside the raster). -/
def Image.getPx (img : Image) (r c : Nat) : Nat :=
  (img.pixels.getD r []).getD c 0

/-- PIL `img.rotate(angle, expand=True)` for the right angles used by
the source (90, 180, 270, counter-clockwise).  `expand=True` grows the
canvas to the bounding box of the rotated content, which for right
angles means the width/height swap for 90° and 270° and stay equal for
180°; every source pixel is carried to its rotated position.  The source
calls it only with 90, 180 and 270; any other angle is out of the
program's reach and left as the identity. -/
def Image.rotate (img : Image) (angle : Nat) : Image :=
  if angle = 90 then
    { img with
      width := img.height
      height := img.width
      pixels := (List.range img.width).map (fun i =>
        (List.range img.height).map (fun j =>
          img.getPx j (img.width - 1 - i))) }
  else if angle = 180 then
    { img with
      pixels := (List.range img.height).map (fun i =>
        (List.range img.width).map (fun j =>
          img.getPx (img.height - 1 - i) (img.width - 1 - j))) }
  else if angle = 270 then
    { img with
      width := img.height
      height := img.width
      pixels := (List.range img.width).map (fun i =>
        (List.range img.height).map (fun j =>
          img.getPx (img.height - 1 - j) i)) }
  else img

/-- The exception classes named in the source's
`except (AttributeError, KeyError, TypeError)` handler. -/
def caughtByExifHandler : PyError → Bool
  | .attributeError => true
  | .keyError => true
  | .typeError => true
  | .otherError _ => false

/-- `apply_exif_orientation(image, file_path)` (lines 94–149).  Reads
the EXIF block, looks up orientation tag 274, and rotates for codes 3,
6, 8; code 1, falsy values, and any other code leave the image
untouched.  Exceptions of the three caught classes degrade to "no
rotation"; any other exception propagates to the caller (`.error`). -/
def apply_exif_orientation (image : Image) : Except PyError Image :=
  match image.exif with
  | .error e =>
      if caughtByExifHandler e then .ok image else .error e
  | .ok none => .ok image
  | .ok (some exif) =>
      match ExifDict.get exif 274 with
      | none => .ok image
      | some orientation =>
          -- `if orientation:` — a present value of 0 is falsy
          if orientation = 0 then .ok image
          else if orientation = 3 then .ok (image.rotate 180)
          else if orientation = 6 then .ok (image.rotate 270)
          else if orientation = 8 then .ok (image.rotate 90)
          else .ok image

/-- Outcome of `Image.open(file_path)` for one input path. -/
inductive OpenResult where
  | failure (msg : String)
  | success (img : Image)
deriving DecidableEq, Repr

/-- One entry of the `jpeg_files` tuple: the path together with what
`Image.open` does on it. -/
structure FileEntry where
  path : String
  openResult : OpenResult
deriving DecidableEq, Repr

/-- Lines 201–206: convert to RGB color mode if necessary; an image
already in RGB mode is passed through unchanged. -/
def toRGB (img : Image) : Image :=
  if img.mode = "RGB" then img else { img with mode := "RGB" }

/-- The per-file loop of `convert_jpegs_to_pdf` (lines 185–210): open
each file (a failing open is recorded and skipped), apply the
orientation correction, coerce to RGB, and append to
`processed_images`.  Only the open step is guarded per item: an
exception from `apply_exif_orientation` escapes the loop. -/
def processLoop : List FileEntry → Except PyError (List Image)
  | [] => .ok []
  | f :: rest =>
      match f.openResult with
      | .failure _ => processLoop rest
      | .success img =>
          match apply_exif_orientation img with
          | .error e => .error e
          | .ok oriented =>
              match processLoop rest with
              | .error e => .error e
              | .ok pages => .ok (toRGB oriented :: pages)

/-- Outcome of `processed_images[0].save(output_path, ...)`: either the
write succeeds or it raises an exception with message `msg`. -/
inductive SaveBehavior where
  | ok
  | raises (msg : String)
deriving DecidableEq, Repr

/-- Observable outcome of one `convert_jpegs_to_pdf` run: the returned
boolean, the document written to the destination (`none` when no file
is written; pages in order), and the `messagebox.showerror` text when
the error dialog is shown. -/
structure RunResult where
  success : Bool
  written : Option (List Image)
  errorDialog : Option String
deriving DecidableEq, Repr

/-- `convert_jpegs_to_pdf(jpeg_files, output_path)` (lines 152–242).
Validates the inputs, runs the per-file loop, fails when no image
survived, then saves the collection as one multi-page PDF; any
exception inside the `try` block is reported via
`messagebox.showerror("Conversion Error", f"Failed to create PDF: {str(e)}")`
and turns into `return False`. -/
def convert_jpegs_to_pdf (jpeg_files : List FileEntry) (output_path : String)
    (save : SaveBehavior) : RunResult :=
  if jpeg_files = [] then
    { success := false, written := none, errorDialog := none }
  else if output_path = "" then
    { success := false, written := none, errorDialog := none }
  else
    match processLoop jpeg_files with
    | .error e =>
        { success := false, written := none,
          errorDialog := some ("Failed to create PDF: " ++ e.str) }
    | .ok processed_images =>
        if processed_images = [] then
          { success := false, written := none, errorDialog := none }
        else
          match save with
          | .ok =>
              { success := true, written := some processed_images,
                errorDialog := none }
          | .raises msg =>
              { success := false, written := none,
                errorDialog := some ("Failed to create PDF: " ++ msg) }

/-- The page count shown in `main`'s success dialog (line 302):
`f"📄 Pages: {len(jpeg_files)}"` — the length of the selected input
tuple. -/
def mainSuccessDialogPages (jpeg_files : List FileEntry) : Nat :=
  jpeg_files.length

/-! ## Derived helpers used to state the claims -/

/-- Whether `Image.open` succeeds for this entry. -/
def opensOK (f : FileEntry) : Bool :=
  match f.openResult with
  | .failure _ => false
  | .success _ => true

/-- Whether reading this image's EXIF raises an exception that the
orientation normalizer does not catch. -/
def exifRaisesUncaught (img : Image) : Bool :=
  match img.exif with
  | .error e => !caughtByExifHandler e
  | .ok _ => false

/-- An entry is clean when it either fails to open (and is skipped) or
opens to an image whose orientation correction does not raise. -/
def entryClean (f : FileEntry) : Bool :=
  match f.openResult with
  | .failure _ => true
  | .success img => !exifRaisesUncaught img

/-- The page a successfully opened entry contributes: its image after
orientation correction and RGB coercion (`none` for a failing open).
Defined from the embedded functions themselves. -/
def pageOfEntry (f : FileEntry) : Option Image :=
  match f.openResult with
  | .failure _ => none
  | .success img => some (toRGB ((apply_exif_orientation img).toOption.getD img))

/-- A 2×3 sample raster used to instantiate universally quantified
theorems; the parameter sets the EXIF read outcome. -/
def sampleImage (ex : Except PyError (Option ExifDict)) : Image :=
  { width := 2, height := 3, mode := "L",
    pixels := [[1, 2], [3, 4], [5, 6]], exif := ex }

/-- A one-element input list whose file opens to the 2×3 grayscale
sample image. -/
def oneGoodFile : List FileEntry :=
  [⟨"a.jpg", .success (sampleImage (.ok none))⟩]

/-- A two-element input list: the first file opens, the second fails to
open (N = 2, K = 1). -/
def mixedFiles : List FileEntry :=
  [⟨"a.jpg", .success (sampleImage (.ok none))⟩,
   ⟨"b.jpg", .failure "cannot identify image file"⟩]

/-! ## Supporting lemmas -/

theorem getD_range_map {α : Type} (n : Nat) (f : Nat → α) (d : α) (i : Nat)
    (h : i < n) : ((List.range n).map f).getD i d = f i := by
  rw [List.getD_eq_getElem?_getD, List.getElem?_map, List.getElem?_range h]
  rfl

theorem toRGB_mode (img : Image) : (toRGB img).mode = "RGB" := by
  unfold toRGB
  split_ifs with h
  · exact h
  · rfl

theorem apply_ok_of_clean (img : Image) (h : exifRaisesUncaught img = false) :
    ∃ x, apply_exif_orientation img = .ok x := by
  rcases hx : img.exif with e | o
  · have hc : caughtByExifHandler e = true := by
      simpa [exifRaisesUncaught, hx] using h
    exact ⟨img, by simp [apply_exif_orientation, hx, hc]⟩
  · rcases o with _ | exif
    · exact ⟨img, by simp [apply_exif_orientation, hx]⟩
    · cases hget : ExifDict.get exif 274 with
      | none => exact ⟨img, by simp [apply_exif_orientation, hx, hget]⟩
      | some v =>
          by_cases h0 : v = 0
          · exact ⟨img, by simp [apply_exif_orientation, hx, hget, h0]⟩
          by_cases h3 : v = 3
          · exact ⟨img.rotate 180,
              by simp [apply_exif_orientation, hx, hget, h0, h3]⟩
          by_cases h6 : v = 6
          · exact ⟨img.rotate 270,
              by simp [apply_exif_orientation, hx, hget, h0, h3, h6]⟩
          by_cases h8 : v = 8
          · exact ⟨img.rotate 90,
              by simp [apply_exif_orientation, hx, hget, h0, h3, h6, h8]⟩
          exact ⟨img, by simp [apply_exif_orientation, hx, hget, h0, h3, h6, h8]⟩

theorem processLoop_clean (files : List FileEntry)
    (h : ∀ f ∈ files, entryClean f = true) :
    processLoop files = .ok (files.filterMap pageOfEntry) := by
  induction files with
  | nil => rfl
  | cons f rest ih =>
      have hf := h f (List.mem_cons_self f rest)
      have hrest : ∀ g ∈ rest, entryClean g = true :=
        fun g hg => h g (List.mem_cons_of_mem f hg)
      cases hopen : f.openResult with
      | failure msg =>
          simp [processLoop, hopen, pageOfEntry, List.filterMap_cons, ih hrest]
      | success img =>
          have hclean : exifRaisesUncaught img = false := by
            simpa [entryClean, hopen] using hf
          obtain ⟨x, hx⟩ := apply_ok_of_clean img hclean
          simp [processLoop, hopen, hx, ih hrest, pageOfEntry,
            List.filterMap_cons, Except.toOption]

theorem length_filterMap_pageOfEntry (files : List FileEntry) :
    (files.filterMap pageOfEntry).length =
      (files.filter (fun f => opensOK f)).length := by
  induction files with
  | nil => rfl
  | cons f rest ih =>
      cases hopen : f.openResult <;>
        simp [pageOfEntry, opensOK, hopen, List.filterMap_cons,
          List.filter_cons, ih]

theorem length_filter_split (files : List FileEntry) :
    (files.filter (fun f => opensOK f)).length +
      (files.filter (fun f => !opensOK f)).length = files.length := by
  induction files with
  | nil => rfl
  | cons f rest ih =>
      cases h : opensOK f <;> simp [List.filter_cons, h] <;> omega

theorem processLoop_all_fail (files : List FileEntry)
    (h : ∀ f ∈ files, opensOK f = false) :
    processLoop files = .ok [] := by
  induction files with
  | nil => rfl
  | cons f rest ih =>
      have hf := h f (List.mem_cons_self f rest)
      cases hopen : f.openResult with
      | failure msg =>
          rw [show processLoop (f :: rest) = processLoop rest by
            simp [processLoop, hopen]]
          exact ih fun g hg => h g (List.mem_cons_of_mem f hg)
      | success img => simp [opensOK, hopen] at hf

theorem processLoop_append_error (pre : List FileEntry) (ps : List Image)
    (rest : List FileEntry) (e : PyError)
    (hpre : processLoop pre = .ok ps) (hrest : processLoop rest = .error e) :
    processLoop (pre ++ rest) = .error e := by
  induction pre generalizing ps with
  | nil => simpa using hrest
  | cons f pre ih =>
      cases hopen : f.openResult with
      | failure msg =>
          simp only [processLoop, hopen] at hpre ⊢
          exact ih ps hpre
      | success img =>
          cases happ : apply_exif_orientation img with
          | error e2 => simp [processLoop, hopen, happ] at hpre
          | ok x =>
              cases hp : processLoop pre with
              | error e2 => simp [processLoop, hopen, happ, hp] at hpre
              | ok ps2 =>
                  simp only [List.cons_append, processLoop, hopen, happ]
                  rw [show pre.append rest = pre ++ rest from rfl, ih ps2 hp]

end JpegToPdf

namespace JpegToPdf

/-! ## Claim theorems -/

/-- C1: `apply_exif_orientation` rotates by 180° for EXIF orientation
code 3, 270° counter-clockwise for code 6 and 90° counter-clockwise for
code 8 (the canvas-expanding `rotate`), and returns the image unchanged
for code 1, for codes 2, 4, 5, 7, for any other code value, for an
absent tag, for an absent EXIF block and for a swallowed EXIF read
error. -/
theorem exif_orientation_mapping (img : Image) :
    (∀ exif, img.exif = .ok (some exif) →
      (ExifDict.get exif 274 = some 3 →
        apply_exif_orientation img = .ok (img.rotate 180)) ∧
      (ExifDict.get exif 274 = some 6 →
        apply_exif_orientation img = .ok (img.rotate 270)) ∧
      (ExifDict.get exif 274 = some 8 →
        apply_exif_orientation img = .ok (img.rotate 90)) ∧
      (ExifDict.get exif 274 = none → apply_exif_orientation img = .ok img) ∧
      (∀ v, ExifDict.get exif 274 = some v → v ≠ 3 → v ≠ 6 → v ≠ 8 →
        apply_exif_orientation img = .ok img)) ∧
    (img.exif = .ok none → apply_exif_orientation img = .ok img) ∧
    (∀ e, img.exif = .error e → caughtByExifHandler e = true →
      apply_exif_orientation img = .ok img) := by
  refine ⟨fun exif hx => ⟨fun hv => ?_, fun hv => ?_, fun hv => ?_,
      fun hv => ?_, fun v hv h3 h6 h8 => ?_⟩, fun hx => ?_, fun e hx hc => ?_⟩
  · simp [apply_exif_orientation, hx, hv]
  · simp [apply_exif_orientation, hx, hv]
  · simp [apply_exif_orientation, hx, hv]
  · simp [apply_exif_orientation, hx, hv]
  · rcases eq_or_ne v 0 with h0 | h0 <;>
      simp [apply_exif_orientation, hx, hv, h0, h3, h6, h8]
  · simp [apply_exif_orientation, hx]
  · simp [apply_exif_orientation, hx, hc]

/-- Witness for C1 on concrete images: each orientation code in
{3, 6, 8} rotates by its mapped angle, and codes 1 and 7 leave the
image unchanged. -/
theorem exif_orientation_mapping_witness :
    apply_exif_orientation (sampleImage (.ok (some [(274, 3)]))) =
      .ok ((sampleImage (.ok (some [(274, 3)]))).rotate 180) ∧
    apply_exif_orientation (sampleImage (.ok (some [(274, 6)]))) =
      .ok ((sampleImage (.ok (some [(274, 6)]))).rotate 270) ∧
    apply_exif_orientation (sampleImage (.ok (some [(274, 8)]))) =
      .ok ((sampleImage (.ok (some [(274, 8)]))).rotate 90) ∧
    apply_exif_orientation (sampleImage (.ok (some [(274, 1)]))) =
      .ok (sampleImage (.ok (some [(274, 1)]))) ∧
    apply_exif_orientation (sampleImage (.ok (some [(274, 7)]))) =
      .ok (sampleImage (.ok (some [(274, 7)]))) ∧
    apply_exif_orientation (sampleImage (.ok none)) =
      .ok (sampleImage (.ok none)) :=
  ⟨((exif_orientation_mapping
      (sampleImage (.ok (some [(274, 3)])))).1 [(274, 3)] rfl).1 (by decide),
   ((exif_orientation_mapping
      (sampleImage (.ok (some [(274, 6)])))).1 [(274, 6)] rfl).2.1 (by decide),
   ((exif_orientation_mapping
      (sampleImage (.ok (some [(274, 8)])))).1 [(274, 8)] rfl).2.2.1 (by decide),
   ((exif_orientation_mapping
      (sampleImage (.ok (some [(274, 1)])))).1 [(274, 1)] rfl).2.2.2.2 1
     (by decide) (by decide) (by decide) (by decide),
   ((exif_orientation_mapping
      (sampleImage (.ok (some [(274, 7)])))).1 [(274, 7)] rfl).2.2.2.2 7
     (by decide) (by decide) (by decide) (by decide),
   (exif_orientation_mapping (sampleImage (.ok none))).2.1 rfl⟩

/-- C4: when the EXIF metadata is missing (no EXIF block or no
orientation tag), or reading it raises one of the caught exception
classes (`AttributeError`, `KeyError`, `TypeError` — the malformed /
unexpected-shape cases), `apply_exif_orientation` raises nothing and
returns its input unchanged. -/
theorem exif_failures_swallowed (img : Image)
    (h : img.exif = .ok none ∨
      (∃ exif, img.exif = .ok (some exif) ∧ ExifDict.get exif 274 = none) ∨
      ∃ e, img.exif = .error e ∧ caughtByExifHandler e = true) :
    apply_exif_orientation img = .ok img := by
  rcases h with hx | ⟨exif, hx, hget⟩ | ⟨e, hx, hc⟩
  · simp [apply_exif_orientation, hx]
  · simp [apply_exif_orientation, hx, hget]
  · simp [apply_exif_orientation, hx, hc]

/-- Witness for C4: a raised `TypeError` is swallowed and the image
comes back unchanged. -/
theorem exif_failures_swallowed_witness :
    apply_exif_orientation (sampleImage (.error .typeError)) =
      .ok (sampleImage (.error .typeError)) :=
  exif_failures_swallowed (sampleImage (.error .typeError))
    (Or.inr (Or.inr ⟨.typeError, rfl, rfl⟩))

/-- C7: the canvas-expanding rotations swap width and height for 90°
and 270° and keep them for 180°; no pixel is cropped — every source
pixel reappears at its rotated position; and through
`apply_exif_orientation`, orientation codes 6 and 8 yield an output
with swapped dimensions while code 3 keeps the input dimensions. -/
theorem rotation_dims_and_no_crop (img : Image) :
    ((img.rotate 90).width = img.height ∧ (img.rotate 90).height = img.width) ∧
    ((img.rotate 270).width = img.height ∧ (img.rotate 270).height = img.width) ∧
    ((img.rotate 180).width = img.width ∧ (img.rotate 180).height = img.height) ∧
    (∀ r c, r < img.height → c < img.width →
      (img.rotate 90).getPx (img.width - 1 - c) r = img.getPx r c ∧
      (img.rotate 270).getPx c (img.height - 1 - r) = img.getPx r c ∧
      (img.rotate 180).getPx (img.height - 1 - r) (img.width - 1 - c) =
        img.getPx r c) ∧
    (∀ exif, img.exif = .ok (some exif) →
      ((ExifDict.get exif 274 = some 6 ∨ ExifDict.get exif 274 = some 8) →
        ∃ out, apply_exif_orientation img = .ok out ∧
          out.width = img.height ∧ out.height = img.width) ∧
      (ExifDict.get exif 274 = some 3 →
        ∃ out, apply_exif_orientation img = .ok out ∧
          out.width = img.width ∧ out.height = img.height)) := by
  refine ⟨⟨rfl, rfl⟩, ⟨?_, ?_⟩, ⟨?_, ?_⟩, fun r c hr hc => ⟨?_, ?_, ?_⟩,
    fun exif hx => ⟨fun hv => ?_, fun hv => ?_⟩⟩
  · simp [Image.rotate]
  · simp [Image.rotate]
  · simp [Image.rotate]
  · simp [Image.rotate]
  · have hcw : img.width - 1 - c < img.width := by omega
    have hcc : img.width - 1 - (img.width - 1 - c) = c := by omega
    simp [Image.rotate, Image.getPx, List.getD_eq_getElem?_getD,
      List.getElem?_map, List.getElem?_range, hcw, hr, hcc]
  · have hrh : img.height - 1 - r < img.height := by omega
    have hrr : img.height - 1 - (img.height - 1 - r) = r := by omega
    simp [Image.rotate, Image.getPx, List.getD_eq_getElem?_getD,
      List.getElem?_map, List.getElem?_range, hrh, hc, hrr]
  · have hrh : img.height - 1 - r < img.height := by omega
    have hcw : img.width - 1 - c < img.width := by omega
    have hrr : img.height - 1 - (img.height - 1 - r) = r := by omega
    have hcc : img.width - 1 - (img.width - 1 - c) = c := by omega
    simp [Image.rotate, Image.getPx, List.getD_eq_getElem?_getD,
      List.getElem?_map, List.getElem?_range, hrh, hcw, hrr, hcc]
  · rcases hv with hv | hv
    · exact ⟨img.rotate 270, by simp [apply_exif_orientation, hx, hv],
        by simp [Image.rotate], by simp [Image.rotate]⟩
    · exact ⟨img.rotate 90, by simp [apply_exif_orientation, hx, hv], rfl, rfl⟩
  · exact ⟨img.rotate 180, by simp [apply_exif_orientation, hx, hv],
      by simp [Image.rotate], by simp [Image.rotate]⟩

/-- Witness for C7 at the 2×3 sample image, rows `r = 2`, column
`c = 0`: dimension swap for 90° and a concrete un-cropped pixel. -/
theorem rotation_dims_and_no_crop_witness :
    ((sampleImage (.ok none)).rotate 90).width = 3 ∧
    ((sampleImage (.ok none)).rotate 90).getPx 1 2 =
      (sampleImage (.ok none)).getPx 2 0 :=
  ⟨(rotation_dims_and_no_crop (sampleImage (.ok none))).1.1,
   ((rotation_dims_and_no_crop (sampleImage (.ok none))).2.2.2.1 2 0
     (by decide) (by decide)).1⟩

/-- C2: when K of the N inputs fail to open (0 < K < N) and nothing
after the open step raises, the run succeeds and writes exactly the
pages obtained by keeping the inputs in their original order, dropping
exactly the failing ones (`List.filterMap` preserves order and
duplicates, so duplicate input paths yield duplicate pages), and the
page count is N − K. -/
theorem partial_open_failures_skipped (files : List FileEntry) (out : String)
    (hclean : ∀ f ∈ files, entryClean f = true)
    (hK : 0 < (files.filter (fun f => !opensOK f)).length)
    (hKN : (files.filter (fun f => !opensOK f)).length < files.length)
    (hout : out ≠ "") :
    convert_jpegs_to_pdf files out .ok =
      { success := true, written := some (files.filterMap pageOfEntry),
        errorDialog := none } ∧
    (files.filterMap pageOfEntry).length =
      files.length - (files.filter (fun f => !opensOK f)).length := by
  have hlen := length_filter_split files
  have hcount : (files.filterMap pageOfEntry).length =
      files.length - (files.filter (fun f => !opensOK f)).length := by
    rw [length_filterMap_pageOfEntry]
    omega
  have hfe : files ≠ [] := by
    intro hnil
    subst hnil
    simp at hKN
  have hpagesne : files.filterMap pageOfEntry ≠ [] := by
    intro hnil
    have : (files.filterMap pageOfEntry).length = 0 := by rw [hnil]; rfl
    omega
  exact ⟨by simp [convert_jpegs_to_pdf, hfe, hout,
    processLoop_clean files hclean, hpagesne], hcount⟩

/-- Witness for C2: two selected inputs of which the second fails to
open; the run writes exactly the one surviving page, 2 − 1 = 1. -/
theorem partial_open_failures_skipped_witness :
    convert_jpegs_to_pdf mixedFiles "out.pdf" .ok =
      { success := true, written := some (mixedFiles.filterMap pageOfEntry),
        errorDialog := none } ∧
    (mixedFiles.filterMap pageOfEntry).length =
      mixedFiles.length -
        (mixedFiles.filter (fun f => !opensOK f)).length :=
  partial_open_failures_skipped mixedFiles "out.pdf"
    (by decide) (by decide) (by decide) (by decide)

/-- C3: every page the loop hands to the PDF encoder is in RGB mode;
`toRGB` passes an RGB image through unchanged and re-tags any other
mode as RGB. -/
theorem pages_all_rgb (files : List FileEntry) (pages : List Image)
    (h : processLoop files = .ok pages) :
    (∀ img ∈ pages, img.mode = "RGB") ∧
    (∀ img : Image, img.mode = "RGB" → toRGB img = img) ∧
    (∀ img : Image, (toRGB img).mode = "RGB") := by
  refine ⟨?_, fun img h' => by simp [toRGB, h'], fun img => toRGB_mode img⟩
  induction files generalizing pages with
  | nil =>
      simp only [processLoop] at h
      cases h
      simp
  | cons f rest ih =>
      cases hopen : f.openResult with
      | failure msg =>
          simp only [processLoop, hopen] at h
          exact ih pages h
      | success img =>
          cases happ : apply_exif_orientation img with
          | error e => simp [processLoop, hopen, happ] at h
          | ok x =>
              cases hp : processLoop rest with
              | error e => simp [processLoop, hopen, happ, hp] at h
              | ok ps =>
                  simp only [processLoop, hopen, happ, hp] at h
                  cases h
                  intro g hg
                  rcases List.mem_cons.mp hg with hg | hg
                  · subst hg
                    exact toRGB_mode x
                  · exact ih ps hp g hg

/-- Witness for C3: the single grayscale input comes out as a page in
RGB mode. -/
theorem pages_all_rgb_witness :
    (toRGB (sampleImage (.ok none))).mode = "RGB" :=
  (pages_all_rgb oneGoodFile [toRGB (sampleImage (.ok none))]
      (by decide)).1
    (toRGB (sampleImage (.ok none))) (by simp)

/-- C5: with an empty input list, an empty destination path, or inputs
that all fail to open, `convert_jpegs_to_pdf` returns `False` and
writes no file. -/
theorem degenerate_runs_fail (files : List FileEntry) (out : String)
    (save : SaveBehavior)
    (h : files = [] ∨ out = "" ∨ ∀ f ∈ files, opensOK f = false) :
    (convert_jpegs_to_pdf files out save).success = false ∧
    (convert_jpegs_to_pdf files out save).written = none := by
  rcases h with h | h | h
  · subst h
    simp [convert_jpegs_to_pdf]
  · subst h
    by_cases hf : files = [] <;> simp [convert_jpegs_to_pdf, hf]
  · by_cases hf : files = []
    · simp [convert_jpegs_to_pdf, hf]
    · by_cases ho : out = ""
      · simp [convert_jpegs_to_pdf, hf, ho]
      · simp [convert_jpegs_to_pdf, hf, ho, processLoop_all_fail files h]

/-- Witness for C5: the empty selection fails without writing. -/
theorem degenerate_runs_fail_witness :
    (convert_jpegs_to_pdf [] "out.pdf" .ok).success = false ∧
    (convert_jpegs_to_pdf [] "out.pdf" .ok).written = none :=
  degenerate_runs_fail [] "out.pdf" .ok (Or.inl rfl)

/-- C6: when the PDF `save` call raises, the exception is caught, the
run returns `False`, and the error dialog shown to the user carries
`"Failed to create PDF: "` followed by the original exception message;
the function still returns normally. -/
theorem save_failure_caught (files : List FileEntry) (out msg : String)
    (pages : List Image) (hproc : processLoop files = .ok pages)
    (hpne : pages ≠ []) (hfe : files ≠ []) (hout : out ≠ "") :
    convert_jpegs_to_pdf files out (.raises msg) =
      { success := false, written := none,
        errorDialog := some ("Failed to create PDF: " ++ msg) } := by
  simp [convert_jpegs_to_pdf, hfe, hout, hproc, hpne]

/-- Witness for C6: an unwritable destination raising "disk full" is
reported with that message in the dialog. -/
theorem save_failure_caught_witness :
    convert_jpegs_to_pdf oneGoodFile "out.pdf" (.raises "disk full") =
      { success := false, written := none,
        errorDialog := some ("Failed to create PDF: " ++ "disk full") } :=
  save_failure_caught oneGoodFile "out.pdf" "disk full"
    [toRGB (sampleImage (.ok none))] (by decide) (by decide) (by decide)
    (by decide)

/-- C9: the conversion is a deterministic function of the selected
inputs — running it twice on the same inputs with two (non-empty)
destination paths gives the same outcome, in particular the same
written document: identical page count and pixel content. -/
theorem conversion_deterministic (files : List FileEntry) (d1 d2 : String)
    (save : SaveBehavior) (h1 : d1 ≠ "") (h2 : d2 ≠ "") :
    convert_jpegs_to_pdf files d1 save = convert_jpegs_to_pdf files d2 save := by
  by_cases hf : files = []
  · simp [convert_jpegs_to_pdf, hf]
  · simp [convert_jpegs_to_pdf, hf, h1, h2]

/-- Witness for C9: the same single-file selection written to two
different destinations gives equal run outcomes. -/
theorem conversion_deterministic_witness :
    convert_jpegs_to_pdf oneGoodFile "first.pdf" .ok =
      convert_jpegs_to_pdf oneGoodFile "second.pdf" .ok :=
  conversion_deterministic oneGoodFile "first.pdf" "second.pdf" .ok
    (by decide) (by decide)

/-- C10: only the open step is guarded per item.  If an input opens
successfully and the subsequent orientation step raises an uncaught
exception, the loop aborts with that exception: the item is not
skipped, the whole run returns `False` via the outer handler, all
previously processed pages are discarded and no file is written. -/
theorem post_open_exception_aborts_run (pre post : List FileEntry)
    (p out : String) (img : Image) (e : PyError) (ps : List Image)
    (save : SaveBehavior)
    (happly : apply_exif_orientation img = .error e)
    (hpre : processLoop pre = .ok ps) (hout : out ≠ "") :
    processLoop (pre ++ ⟨p, .success img⟩ :: post) = .error e ∧
    convert_jpegs_to_pdf (pre ++ ⟨p, .success img⟩ :: post) out save =
      { success := false, written := none,
        errorDialog := some ("Failed to create PDF: " ++ e.str) } := by
  have hbad : processLoop (⟨p, .success img⟩ :: post) = .error e := by
    simp [processLoop, happly]
  have hall : processLoop (pre ++ ⟨p, .success img⟩ :: post) = .error e :=
    processLoop_append_error pre ps _ e hpre hbad
  have hne : pre ++ ⟨p, .success img⟩ :: post ≠ [] := by simp
  exact ⟨hall, by simp [convert_jpegs_to_pdf, hne, hout, hall]⟩

/-- Witness for C10: a first input that processes fine followed by one
whose EXIF read raises an uncaught exception; the whole run fails and
the first page is discarded. -/
theorem post_open_exception_aborts_run_witness :
    processLoop (oneGoodFile ++
        ⟨"b.jpg", .success (sampleImage (.error (.otherError "boom")))⟩ :: []) =
      .error (.otherError "boom") ∧
    convert_jpegs_to_pdf (oneGoodFile ++
        ⟨"b.jpg", .success (sampleImage (.error (.otherError "boom")))⟩ :: [])
      "out.pdf" .ok =
      { success := false, written := none,
        errorDialog := some ("Failed to create PDF: " ++ "boom") } :=
  post_open_exception_aborts_run oneGoodFile [] "b.jpg" "out.pdf"
    (sampleImage (.error (.otherError "boom"))) (.otherError "boom")
    [toRGB (sampleImage (.ok none))] .ok (by decide) (by decide) (by decide)

/-- C8 (refuted — code bug): on a successful run with a partial open
failure, the success dialog of `main` reports `len(jpeg_files)` (the
number of *selected* inputs, here 2) while the written document has
only the surviving pages (here 1), so the notified page count does not
equal the number of pages in the output document. -/
theorem success_dialog_overcounts_pages :
    (convert_jpegs_to_pdf mixedFiles "out.pdf" .ok).success = true ∧
    ((convert_jpegs_to_pdf mixedFiles "out.pdf" .ok).written.getD []).length
      = 1 ∧
    mainSuccessDialogPages mixedFiles = 2 := by decide

end JpegToPdf
